import Mathlib

/-!
Verification of the rescue serial protocol implementation
(`sw/host/opentitanlib/src/rescue/serial.rs`, `impl Rescue for RescueSerial`).

The host-side rescue session is embedded shallowly: the UART transport and
the pattern waiter (`UartConsole::wait_for`, an external collaborator) are
modelled by an explicit simulation state carrying

  * a `trace` of transport-visible events, in the order the code performs
    them (writes, break-signal changes, baud-rate changes, pattern waits,
    target resets), and
  * a `script` of outcomes the pattern waiter returns, one per `wait_for`
    call, in order: a captures vector (index 0 is the whole matched text,
    index 1 the first parenthesised group, following the regex-captures
    convention used by the waiter), a timeout, or a transport I/O error.

Each Rust method becomes a Lean function from simulation state to
`Except RescueError α × SimState`; the `?` operator becomes propagation of
the `Except.error` case, and `let _ = ...` becomes discarding the outcome
while keeping the state.  Durations are carried in milliseconds as `Nat`.
-/

namespace Rescue

/-- Outcome the pattern waiter (`UartConsole::wait_for`) produces for one
call.  Modelled from the spec: the waiter is an external collaborator that
"blocks the caller until device output matches a given pattern or a timeout
elapses; returns matched groups or a timeout failure", and "fails distinctly
on timeout vs. I/O error".  `groups` is the captures vector: element 0 the
full matched text, element 1 the first parenthesised capture group. -/
inductive Response where
  | groups (gs : List String)
  | timeout
  | ioError
deriving DecidableEq, Repr

/-- Transport-visible events, recorded in the order the code performs them. -/
inductive Event where
  | setBreak (b : Bool)
  | resetTarget (delayMs : Nat) (clearUart : Bool)
  | write (bytes : List Nat)
  | waitFor (pattern : String) (timeoutMs : Nat)
  | setBaudrate (baud : Nat)
deriving DecidableEq, Repr

/-- Error kinds distinguished by the code: `RescueError::BadMode(msg)`,
the waiter's deadline-exceeded error, a transport I/O failure, and the
`std::str::from_utf8` conversion error (all reach the caller as distinct
`anyhow::Error` payloads). -/
inductive RescueError where
  | badMode (msg : String)
  | timeout
  | ioError
  | utf8Error
deriving DecidableEq, Repr

/-- Simulation state: remaining scripted waiter outcomes and the event
trace so far. -/
structure SimState where
  script : List Response
  trace : List Event
deriving DecidableEq, Repr

/-- Append one event to the trace. -/
def emit (e : Event) (s : SimState) : SimState :=
  { s with trace := s.trace ++ [e] }

/-- `uart.write(bytes)`: records the bytes on the trace. -/
def uartWrite (bs : List Nat) (s : SimState) : SimState :=
  emit (.write bs) s

/-- `UartConsole::wait_for(uart, pattern, timeout)`: records the wait and
consumes the next scripted outcome; an empty script behaves as a silent
device (timeout). -/
def waitFor (pat : String) (timeoutMs : Nat) (s : SimState) :
    Except RescueError (List String) × SimState :=
  let s1 := emit (.waitFor pat timeoutMs) s
  match s1.script with
  | [] => (.error .timeout, s1)
  | r :: rest =>
    let s2 := { s1 with script := rest }
    match r with
    | .groups gs => (.ok gs, s2)
    | .timeout => (.error .timeout, s2)
    | .ioError => (.error .ioError, s2)

/-- `result[i]` on the waiter's captures vector.  For the patterns used
here the waiter always returns the full captures vector (length at least
2), so the default is never reached on contract-respecting scripts. -/
def getGroup (gs : List String) (i : Nat) : String :=
  gs.getD i ""

/-- `u32::to_be_bytes`: big-endian byte decomposition of a 32-bit word. -/
def u32ToBeBytes (n : Nat) : List Nat :=
  [n / 2 ^ 24 % 256, n / 2 ^ 16 % 256, n / 2 ^ 8 % 256, n % 256]

/-- `u32::from_be_bytes`: big-endian byte composition. -/
def u32FromBeBytes (bs : List Nat) : Nat :=
  bs.foldl (fun a b => a * 256 + b % 256) 0

/-- Byte form of an ASCII string literal (`*b"..."` in the source). -/
def asciiBytes (str : String) : List Nat :=
  str.toList.map Char.toNat

/-- Is `b` a UTF-8 continuation byte (`0x80..=0xBF`)? -/
def isCont (b : Nat) : Bool :=
  0x80 ≤ b && b < 0xC0

/-- UTF-8 decoder with exactly the validity rules of `std::str::from_utf8`:
no overlong encodings, no surrogate code points, nothing above U+10FFFF.
Returns `none` on invalid input. -/
def utf8Decode : List Nat → Option (List Char)
  | [] => some []
  | b1 :: rest =>
    if b1 < 0x80 then
      (utf8Decode rest).map (fun cs => Char.ofNat b1 :: cs)
    else if b1 < 0xC2 then
      none
    else if b1 < 0xE0 then
      match rest with
      | b2 :: rest2 =>
        if isCont b2 then
          (utf8Decode rest2).map
            (fun cs => Char.ofNat ((b1 - 0xC0) * 0x40 + (b2 - 0x80)) :: cs)
        else none
      | [] => none
    else if b1 < 0xF0 then
      match rest with
      | b2 :: b3 :: rest3 =>
        if isCont b2 && isCont b3
            && (b1 ≠ 0xE0 || 0xA0 ≤ b2) && (b1 ≠ 0xED || b2 < 0xA0) then
          (utf8Decode rest3).map
            (fun cs =>
              Char.ofNat ((b1 - 0xE0) * 0x1000 + (b2 - 0x80) * 0x40 + (b3 - 0x80)) :: cs)
        else none
      | _ => none
    else if b1 < 0xF5 then
      match rest with
      | b2 :: b3 :: b4 :: rest4 =>
        if isCont b2 && isCont b3 && isCont b4
            && (b1 ≠ 0xF0 || 0x90 ≤ b2) && (b1 ≠ 0xF4 || b2 < 0x90) then
          (utf8Decode rest4).map
            (fun cs =>
              Char.ofNat ((b1 - 0xF0) * 0x40000 + (b2 - 0x80) * 0x1000
                + (b3 - 0x80) * 0x40 + (b4 - 0x80)) :: cs)
        else none
      | _ => none
    else none

/-- `std::str::from_utf8` on a byte slice, as a `String`. -/
def utf8DecodeString (bs : List Nat) : Option String :=
  (utf8Decode bs).map String.mk

end Rescue

namespace RescueSerial

open Rescue

/-- `Self::ONE_SECOND`, in milliseconds. -/
def ONE_SECOND : Nat := 1000

/-- `pub const REBOOT: RescueMode = RescueMode(u32::from_be_bytes(*b"REBO"))`. -/
def REBOOT : Nat := u32FromBeBytes (asciiBytes "REBO")

/-- `pub const BAUD: RescueMode = RescueMode(u32::from_be_bytes(*b"BAUD"))`. -/
def BAUD : Nat := u32FromBeBytes (asciiBytes "BAUD")

/-- `pub const WAIT: RescueMode = RescueMode(u32::from_be_bytes(*b"WAIT"))`. -/
def WAIT : Nat := u32FromBeBytes (asciiBytes "WAIT")

/-- `const BAUD_115K: [u8; 4] = *b"115K"`. -/
def BAUD_115K : List Nat := asciiBytes "115K"

/-- `const BAUD_230K: [u8; 4] = *b"230K"`. -/
def BAUD_230K : List Nat := asciiBytes "230K"

/-- `const BAUD_460K: [u8; 4] = *b"460K"`. -/
def BAUD_460K : List Nat := asciiBytes "460K"

/-- `const BAUD_921K: [u8; 4] = *b"921K"`. -/
def BAUD_921K : List Nat := asciiBytes "921K"

/-- `const BAUD_1M33: [u8; 4] = *b"1M33"`. -/
def BAUD_1M33 : List Nat := asciiBytes "1M33"

/-- `const BAUD_1M50: [u8; 4] = *b"1M50"`. -/
def BAUD_1M50 : List Nat := asciiBytes "1M50"

/-- The session's configuration fields (`uart` itself is the simulated
transport; durations in milliseconds). -/
structure Session where
  reset_delay : Nat
  enter_delay : Nat
deriving DecidableEq, Repr

/-- `RescueSerial::new`: 50 ms reset delay, 5 s rescue-entry window. -/
def new : Session :=
  { reset_delay := 50, enter_delay := 5000 }

/-- The `match baud` arm group of `set_speed`: the closed map from
requested integer rate to 4-byte baud symbol; `none` is the
`_ => return Err(RescueError::BadMode(...))` arm. -/
def baudSymbol (baud : Nat) : Option (List Nat) :=
  if baud = 115200 then some BAUD_115K
  else if baud = 230400 then some BAUD_230K
  else if baud = 460800 then some BAUD_460K
  else if baud = 921600 then some BAUD_921K
  else if baud = 1333333 then some BAUD_1M33
  else if baud = 1500000 then some BAUD_1M50
  else none

/-- Regex passed to the acknowledgement waits: `(ok|error):.*\r\n`. -/
def ackPattern : String := "(ok|error):.*\r\n"

/-- Regex passed to the rescue-entry banner wait: `rescue:.*\r\n`. -/
def bannerPattern : String := "rescue:.*\r\n"

/-- Regex passed to `set_mode`'s response wait:
`format!("mode: {mode}\r\n(ok|error):.*\r\n")`. -/
def modePattern (mode : String) : String :=
  "mode: " ++ mode ++ "\r\n" ++ ackPattern

/-- `RescueSerial::enter` (the `Rescue` impl): assert break, optionally
reset the target, wait for the `rescue:` banner, deassert break, then
consume-and-discard one optional acknowledgement line. -/
def enter (self : Session) (reset_target : Bool) (s : SimState) :
    Except RescueError Unit × SimState :=
  let s1 := emit (.setBreak true) s
  let s2 := if reset_target then emit (.resetTarget self.reset_delay true) s1 else s1
  match waitFor bannerPattern self.enter_delay s2 with
  | (.error e, s3) => (.error e, s3)
  | (.ok _, s3) =>
    let s4 := emit (.setBreak false) s3
    let s5 := (waitFor ackPattern ONE_SECOND s4).2
    (.ok (), s5)

/-- `RescueSerial::set_mode`: write the tag's 4 big-endian bytes, write a
single `\r`, convert the tag bytes to text (`std::str::from_utf8`), wait
for the `mode: <tag>` response, and fail with `BadMode(result[0])` when
the captured status `result[1]` is `error`. -/
def set_mode (mode : Nat) (s : SimState) : Except RescueError Unit × SimState :=
  let modeBytes := u32ToBeBytes mode
  let s1 := uartWrite modeBytes s
  let s2 := uartWrite [13] s1
  match utf8DecodeString modeBytes with
  | none => (.error .utf8Error, s2)
  | some modeStr =>
    match waitFor (modePattern modeStr) ONE_SECOND s2 with
    | (.error e, s3) => (.error e, s3)
    | (.ok result, s3) =>
      if getGroup result 1 = "error" then
        (.error (.badMode (getGroup result 0)), s3)
      else (.ok (), s3)

/-- `RescueSerial::set_speed`: map the rate to its symbol (rejecting
unknown rates with `BadMode` before any transport activity), select the
`BAUD` mode, write the 4 symbol bytes, wait for `(ok|error)`, and only on
`ok` change the host-side baud rate. -/
def set_speed (baud : Nat) (s : SimState) : Except RescueError Unit × SimState :=
  match baudSymbol baud with
  | none => (.error (.badMode ("Unsupported badrate " ++ toString baud)), s)
  | some symbol =>
    match set_mode BAUD s with
    | (.error e, s1) => (.error e, s1)
    | (.ok _, s1) =>
      let s2 := uartWrite symbol s1
      match waitFor ackPattern ONE_SECOND s2 with
      | (.error e, s3) => (.error e, s3)
      | (.ok result, s3) =>
        if getGroup result 1 = "error" then
          (.error (.badMode (getGroup result 0)), s3)
        else
          let s4 := emit (.setBaudrate baud) s3
          (.ok (), s4)

/-- `RescueSerial::wait`: `self.set_mode(Self::WAIT)?; Ok(())`. -/
def wait (s : SimState) : Except RescueError Unit × SimState :=
  match set_mode WAIT s with
  | (.error e, s1) => (.error e, s1)
  | (.ok _, s1) => (.ok (), s1)

/-- `RescueSerial::reboot`: `self.set_mode(Self::REBOOT)?; Ok(())`. -/
def reboot (s : SimState) : Except RescueError Unit × SimState :=
  match set_mode REBOOT s with
  | (.error e, s1) => (.error e, s1)
  | (.ok _, s1) => (.ok (), s1)

end RescueSerial

namespace Rescue

/-- Bytes contributed by one event to the write stream. -/
def Event.writtenOf : Event → List Nat
  | .write bs => bs
  | _ => []

/-- All bytes written to the transport over a trace, in order. -/
def writtenBytes (tr : List Event) : List Nat :=
  (tr.map Event.writtenOf).flatten

/-- Final state of the break signal after a trace (initially deasserted). -/
def breakAsserted (tr : List Event) : Bool :=
  tr.foldl (fun st e => match e with | .setBreak b => b | _ => st) false

/-- Does the trace contain a host baud-rate change? -/
def hasBaudChange (tr : List Event) : Bool :=
  tr.any (fun e => match e with | .setBaudrate _ => true | _ => false)

/-- Does the trace contain a pattern wait? -/
def hasWait (tr : List Event) : Bool :=
  tr.any (fun e => match e with | .waitFor _ _ => true | _ => false)

/-- Initial simulation state for a given device script. -/
def initState (script : List Response) : SimState :=
  { script := script, trace := [] }

end Rescue

namespace Rescue

open RescueSerial

/-- The tag constants decode back to their ASCII text. -/
theorem utf8_BAUD_text : utf8DecodeString (u32ToBeBytes BAUD) = some "BAUD" := by
  decide

theorem utf8_WAIT_text : utf8DecodeString (u32ToBeBytes WAIT) = some "WAIT" := by
  decide

theorem utf8_REBO_text : utf8DecodeString (u32ToBeBytes REBOOT) = some "REBO" := by
  decide

/-- A captures vector for a successful `mode: BAUD` response. -/
def okModeGroups : List String := ["mode: BAUD\r\nok:\r\n", "ok"]

/-- A captures vector for a successful `(ok|error)` acknowledgement. -/
def okAckGroups : List String := ["ok:\r\n", "ok"]

/-- Device script answering both waits of a `set_speed` call with `ok`. -/
def okSpeedScript : List Response := [.groups okModeGroups, .groups okAckGroups]

/-- A rate outside the six supported ones maps to no symbol. -/
theorem baudSymbol_none (baud : Nat)
    (h : baud ∉ [115200, 230400, 460800, 921600, 1333333, 1500000]) :
    baudSymbol baud = none := by
  simp only [List.mem_cons, List.not_mem_nil, or_false, not_or] at h
  obtain ⟨h1, h2, h3, h4, h5, h6⟩ := h
  simp [baudSymbol, h1, h2, h3, h4, h5, h6]

end Rescue

namespace Rescue

open RescueSerial

/-- C1: For every supported baud rate, `set_speed` selects the correct
4-byte baud symbol (115200 -> "115K", 230400 -> "230K", 460800 -> "460K",
921600 -> "921K", 1333333 -> "1M33", 1500000 -> "1M50"), and on an
all-`ok` script writes exactly that symbol after the BAUD mode command;
for any rate outside these six, `set_speed` returns a `BadMode` error and
writes no bytes to the transport. -/
theorem set_speed_baud_map :
    (baudSymbol 115200 = some (asciiBytes "115K") ∧
     baudSymbol 230400 = some (asciiBytes "230K") ∧
     baudSymbol 460800 = some (asciiBytes "460K") ∧
     baudSymbol 921600 = some (asciiBytes "921K") ∧
     baudSymbol 1333333 = some (asciiBytes "1M33") ∧
     baudSymbol 1500000 = some (asciiBytes "1M50")) ∧
    ((set_speed 115200 (initState okSpeedScript)).2.trace.getD 3 (.setBreak true)
        = .write (asciiBytes "115K") ∧
     (set_speed 230400 (initState okSpeedScript)).2.trace.getD 3 (.setBreak true)
        = .write (asciiBytes "230K") ∧
     (set_speed 460800 (initState okSpeedScript)).2.trace.getD 3 (.setBreak true)
        = .write (asciiBytes "460K") ∧
     (set_speed 921600 (initState okSpeedScript)).2.trace.getD 3 (.setBreak true)
        = .write (asciiBytes "921K") ∧
     (set_speed 1333333 (initState okSpeedScript)).2.trace.getD 3 (.setBreak true)
        = .write (asciiBytes "1M33") ∧
     (set_speed 1500000 (initState okSpeedScript)).2.trace.getD 3 (.setBreak true)
        = .write (asciiBytes "1M50")) ∧
    ∀ baud, baud ∉ [115200, 230400, 460800, 921600, 1333333, 1500000] →
      ∀ script,
        (set_speed baud (initState script)).1
            = .error (.badMode ("Unsupported badrate " ++ toString baud)) ∧
        writtenBytes (set_speed baud (initState script)).2.trace = [] := by
  refine ⟨by decide, by decide, ?_⟩
  intro baud h script
  have hnone := baudSymbol_none baud h
  simp [set_speed, hnone, initState, writtenBytes]

/-- C1 witness: the unsupported rate 9600 is rejected with `BadMode` and
nothing is written. -/
theorem set_speed_baud_map_witness :
    (set_speed 9600 (initState [])).1
        = .error (.badMode ("Unsupported badrate " ++ toString 9600)) ∧
    writtenBytes (set_speed 9600 (initState [])).2.trace = [] :=
  set_speed_baud_map.2.2 9600 (by decide) []

end Rescue

namespace Rescue

open RescueSerial

/-- C2: In `set_speed`, the BAUD mode command (4 tag bytes, then `\r`,
then the mode-response wait) always comes first; the symbol bytes are
written after it with no terminator, followed by the acknowledgement
wait; the host-side baud rate is changed only on an `ok` outcome — a
`setBaudrate` event occurs exactly on the success path, as the final
event, and never on an error or timeout path. -/
theorem set_speed_ordering (baud : Nat) (symbol : List Nat)
    (hsym : baudSymbol baud = some symbol) (script : List Response) :
    ((set_speed baud (initState script)).2.trace.take 3
        = [.write (u32ToBeBytes BAUD), .write [13],
           .waitFor (modePattern "BAUD") ONE_SECOND]) ∧
    (∀ b, Event.setBaudrate b ∈ (set_speed baud (initState script)).2.trace →
        (set_speed baud (initState script)).1 = .ok () ∧ b = baud) ∧
    ((set_speed baud (initState script)).1 = .ok () →
        (set_speed baud (initState script)).2.trace
            = [.write (u32ToBeBytes BAUD), .write [13],
               .waitFor (modePattern "BAUD") ONE_SECOND, .write symbol,
               .waitFor ackPattern ONE_SECOND, .setBaudrate baud]) := by
  have hBAUD := utf8_BAUD_text
  match script with
  | [] =>
    simp [set_speed, set_mode, hsym, hBAUD, waitFor, uartWrite, emit, initState,
      modePattern]
  | .timeout :: rest =>
    simp [set_speed, set_mode, hsym, hBAUD, waitFor, uartWrite, emit, initState,
      modePattern]
  | .ioError :: rest =>
    simp [set_speed, set_mode, hsym, hBAUD, waitFor, uartWrite, emit, initState,
      modePattern]
  | .groups gs1 :: rest =>
    by_cases hg1 : getGroup gs1 1 = "error"
    · simp [set_speed, set_mode, hsym, hBAUD, waitFor, uartWrite, emit, initState,
        modePattern, hg1]
    · match rest with
      | [] =>
        simp [set_speed, set_mode, hsym, hBAUD, waitFor, uartWrite, emit, initState,
          modePattern, hg1]
      | .timeout :: rest2 =>
        simp [set_speed, set_mode, hsym, hBAUD, waitFor, uartWrite, emit, initState,
          modePattern, hg1]
      | .ioError :: rest2 =>
        simp [set_speed, set_mode, hsym, hBAUD, waitFor, uartWrite, emit, initState,
          modePattern, hg1]
      | .groups gs2 :: rest2 =>
        by_cases hg2 : getGroup gs2 1 = "error"
        · simp [set_speed, set_mode, hsym, hBAUD, waitFor, uartWrite, emit, initState,
            modePattern, hg1, hg2]
        · simp [set_speed, set_mode, hsym, hBAUD, waitFor, uartWrite, emit, initState,
            modePattern, hg1, hg2]

/-- C2 witness: the spec scenario — `set_speed 1333333` on an all-`ok`
script writes "1M33" after the BAUD mode command and sets the host rate
to 1333333 as the last event. -/
theorem set_speed_ordering_witness :
    ((set_speed 1333333 (initState okSpeedScript)).2.trace.take 3
        = [.write (u32ToBeBytes BAUD), .write [13],
           .waitFor (modePattern "BAUD") ONE_SECOND]) ∧
    (∀ b, Event.setBaudrate b ∈ (set_speed 1333333 (initState okSpeedScript)).2.trace →
        (set_speed 1333333 (initState okSpeedScript)).1 = .ok () ∧ b = 1333333) ∧
    ((set_speed 1333333 (initState okSpeedScript)).1 = .ok () →
        (set_speed 1333333 (initState okSpeedScript)).2.trace
            = [.write (u32ToBeBytes BAUD), .write [13],
               .waitFor (modePattern "BAUD") ONE_SECOND, .write BAUD_1M33,
               .waitFor ackPattern ONE_SECOND, .setBaudrate 1333333]) :=
  set_speed_ordering 1333333 BAUD_1M33 (by decide) okSpeedScript

end Rescue

namespace Rescue

open RescueSerial

/-- C3: For every mode tag (any tag whose 4 big-endian bytes are valid
text, which holds for all tags of the fixed literal set), `set_mode`
writes exactly 5 bytes — the 4 big-endian tag bytes then a single
carriage return — and only then waits for the `mode: <tag>` response;
when the waiter answers with a contract-respecting captures vector
(status group `ok` or `error`), the call succeeds iff that status is
`ok`. -/
theorem set_mode_frame (mode : Nat) (modeStr : String)
    (hdec : utf8DecodeString (u32ToBeBytes mode) = some modeStr) :
    (∀ script : List Response,
      writtenBytes (set_mode mode (initState script)).2.trace
          = u32ToBeBytes mode ++ [13] ∧
      (u32ToBeBytes mode).length = 4 ∧
      (set_mode mode (initState script)).2.trace.take 3
          = [.write (u32ToBeBytes mode), .write [13],
             .waitFor (modePattern modeStr) ONE_SECOND]) ∧
    (∀ gs rest, getGroup gs 1 = "ok" ∨ getGroup gs 1 = "error" →
      ((set_mode mode (initState (.groups gs :: rest))).1 = .ok ()
          ↔ getGroup gs 1 = "ok")) := by
  have hlen : (u32ToBeBytes mode).length = 4 := rfl
  constructor
  · intro script
    match script with
    | [] =>
      simp [set_mode, hdec, hlen, waitFor, uartWrite, emit, initState,
        writtenBytes, Event.writtenOf]
    | .timeout :: rest =>
      simp [set_mode, hdec, hlen, waitFor, uartWrite, emit, initState,
        writtenBytes, Event.writtenOf]
    | .ioError :: rest =>
      simp [set_mode, hdec, hlen, waitFor, uartWrite, emit, initState,
        writtenBytes, Event.writtenOf]
    | .groups gs1 :: rest =>
      by_cases hg1 : getGroup gs1 1 = "error"
      · simp [set_mode, hdec, hlen, waitFor, uartWrite, emit, initState,
          writtenBytes, Event.writtenOf, hg1]
      · simp [set_mode, hdec, hlen, waitFor, uartWrite, emit, initState,
          writtenBytes, Event.writtenOf, hg1]
  · intro gs rest h
    by_cases hg : getGroup gs 1 = "error"
    · rw [hg]
      simp [set_mode, hdec, waitFor, uartWrite, emit, initState, hg]
    · have hok : getGroup gs 1 = "ok" := h.resolve_right hg
      rw [hok]
      simp [set_mode, hdec, waitFor, uartWrite, emit, initState, hg]

/-- C3 witness: `set_mode WAIT` on an `ok` response writes the 5 bytes
`"WAIT\r"` before the wait and succeeds. -/
theorem set_mode_frame_witness :
    (writtenBytes (set_mode WAIT (initState [.groups ["mode: WAIT\r\nok:\r\n", "ok"]])).2.trace
        = u32ToBeBytes WAIT ++ [13] ∧
     (u32ToBeBytes WAIT).length = 4 ∧
     (set_mode WAIT (initState [.groups ["mode: WAIT\r\nok:\r\n", "ok"]])).2.trace.take 3
        = [.write (u32ToBeBytes WAIT), .write [13],
           .waitFor (modePattern "WAIT") ONE_SECOND]) ∧
    (getGroup ["mode: WAIT\r\nok:\r\n", "ok"] 1 = "ok" ∨
        getGroup ["mode: WAIT\r\nok:\r\n", "ok"] 1 = "error") ∧
    ((set_mode WAIT (initState [.groups ["mode: WAIT\r\nok:\r\n", "ok"]])).1 = .ok ()
        ↔ getGroup ["mode: WAIT\r\nok:\r\n", "ok"] 1 = "ok") :=
  ⟨(set_mode_frame WAIT "WAIT" (by decide)).1 [.groups ["mode: WAIT\r\nok:\r\n", "ok"]],
   Or.inl (by decide),
   (set_mode_frame WAIT "WAIT" (by decide)).2 ["mode: WAIT\r\nok:\r\n", "ok"] []
     (Or.inl (by decide))⟩

end Rescue

namespace Rescue

open RescueSerial

/-- C4: When the captured status group of the device response is `error`,
both `set_mode` and `set_speed` fail with a `BadMode` error whose message
is exactly element 0 of the waiter's captures vector — the full matched
response text, carried verbatim (`RescueError::BadMode(result[0].clone())`). -/
theorem error_response_badmode (gs : List String) (hst : getGroup gs 1 = "error")
    (mode : Nat) (modeStr : String)
    (hdec : utf8DecodeString (u32ToBeBytes mode) = some modeStr)
    (baud : Nat) (symbol : List Nat) (hsym : baudSymbol baud = some symbol)
    (okgs : List String) (hok : getGroup okgs 1 ≠ "error") :
    (set_mode mode (initState [.groups gs])).1
        = .error (.badMode (getGroup gs 0)) ∧
    (set_speed baud (initState [.groups okgs, .groups gs])).1
        = .error (.badMode (getGroup gs 0)) := by
  have hBAUD := utf8_BAUD_text
  constructor
  · simp [set_mode, hdec, waitFor, uartWrite, emit, initState, hst]
  · simp [set_speed, set_mode, hsym, hBAUD, waitFor, uartWrite, emit, initState,
      hok, hst]

/-- C4 witness: a device answering `error:boom` makes `set_mode WAIT` and
`set_speed 115200` fail with `BadMode` carrying the matched text. -/
theorem error_response_badmode_witness :
    (set_mode WAIT (initState [.groups ["error:boom\r\n", "error"]])).1
        = .error (.badMode (getGroup ["error:boom\r\n", "error"] 0)) ∧
    (set_speed 115200 (initState [.groups okModeGroups,
        .groups ["error:boom\r\n", "error"]])).1
        = .error (.badMode (getGroup ["error:boom\r\n", "error"] 0)) :=
  error_response_badmode ["error:boom\r\n", "error"] (by decide)
    WAIT "WAIT" (by decide) 115200 BAUD_115K (by decide) okModeGroups (by decide)

end Rescue

namespace Rescue

open RescueSerial

/-- C5 counterexample: with a silent device (banner wait times out),
`enter` fails with `Timeout` but the break signal is NOT cleared — the
final break state of the run is still asserted, because the failing
banner wait propagates before `set_break(false)` is reached. -/
theorem enter_timeout_break_counterexample :
    (enter new false (initState [])).1 = .error .timeout ∧
    (enter new false (initState [])).2.trace
        = [.setBreak true, .waitFor bannerPattern 5000] ∧
    ¬ breakAsserted (enter new false (initState [])).2.trace = false :=
  ⟨rfl, rfl, by decide⟩

/-- C5 amended: if the banner wait times out, `enter` fails with
`Timeout` and the break condition is left asserted — the failing path
never deasserts the break. -/
theorem enter_timeout_break_asserted (self : Session) (rt : Bool)
    (script : List Response)
    (hscript : script = [] ∨ script.head? = some Response.timeout) :
    (enter self rt (initState script)).1 = .error .timeout ∧
    breakAsserted (enter self rt (initState script)).2.trace = true := by
  rcases hscript with h | h
  · subst h
    cases rt <;>
      simp [enter, waitFor, emit, initState, breakAsserted]
  · match script, h with
    | .timeout :: rest, _ =>
      cases rt <;>
        simp [enter, waitFor, emit, initState, breakAsserted]

/-- C5 amended witness: a concrete silent-device run leaves the break
asserted. -/
theorem enter_timeout_break_asserted_witness :
    (enter new false (initState [])).1 = .error .timeout ∧
    breakAsserted (enter new false (initState [])).2.trace = true :=
  enter_timeout_break_asserted new false [] (Or.inl rfl)

end Rescue

namespace Rescue

open RescueSerial

/-- C6: Once the rescue banner has been matched and the break deasserted,
a timeout of the optional 1-second acknowledgement read is not an error:
with a script holding only the banner match (so the acknowledgement wait
times out on the silent device), `enter` still returns `Ok`, the break
ends deasserted, and the trace shows the acknowledgement wait was indeed
attempted last. -/
theorem enter_ok_despite_ack_timeout (self : Session) (rt : Bool)
    (gs : List String) :
    (enter self rt (initState [Response.groups gs])).1 = .ok () ∧
    breakAsserted (enter self rt (initState [Response.groups gs])).2.trace = false ∧
    (enter self rt (initState [Response.groups gs])).2.trace.getLast?
        = some (.waitFor ackPattern ONE_SECOND) := by
  cases rt <;>
    simp [enter, waitFor, emit, initState, breakAsserted]

/-- C7: A timeout of the mode-response wait in `set_mode` is surfaced as
the waiter's own `Timeout` failure, never converted into `BadMode`. -/
theorem set_mode_timeout_propagated (mode : Nat) (modeStr : String)
    (hdec : utf8DecodeString (u32ToBeBytes mode) = some modeStr)
    (script : List Response)
    (hscript : script = [] ∨ script.head? = some Response.timeout) :
    (set_mode mode (initState script)).1 = .error .timeout ∧
    ∀ msg, (set_mode mode (initState script)).1 ≠ .error (.badMode msg) := by
  rcases hscript with h | h
  · subst h
    simp [set_mode, hdec, waitFor, uartWrite, emit, initState]
  · match script, h with
    | .timeout :: rest, _ =>
      simp [set_mode, hdec, waitFor, uartWrite, emit, initState]

/-- C7 witness: `set_mode WAIT` against a silent device fails with
`Timeout`, not `BadMode`. -/
theorem set_mode_timeout_propagated_witness :
    (set_mode WAIT (initState [])).1 = .error .timeout ∧
    ∀ msg, (set_mode WAIT (initState [])).1 ≠ .error (.badMode msg) :=
  set_mode_timeout_propagated WAIT "WAIT" (by decide) [] (Or.inl rfl)

/-- C8: `wait()` and `reboot()` are definitionally thin wrappers: on every
simulation state, `wait` returns exactly what `set_mode WAIT` returns
(same outcome, same script, same trace — hence identical error semantics
and no additional payload), and likewise `reboot` with `set_mode REBOOT`. -/
theorem wait_reboot_are_set_mode (s : SimState) :
    wait s = set_mode WAIT s ∧ reboot s = set_mode REBOOT s := by
  constructor
  · rcases hw : set_mode WAIT s with ⟨res, s1⟩
    cases res with
    | ok a => cases a; simp [wait, hw]
    | error e => simp [wait, hw]
  · rcases hr : set_mode REBOOT s with ⟨res, s1⟩
    cases res with
    | ok a => cases a; simp [reboot, hr]
    | error e => simp [reboot, hr]

/-- C9: A mode tag whose big-endian bytes are not valid UTF-8 makes
`set_mode` write the 5 command bytes and then fail with the UTF-8
conversion error — not `BadMode` — without ever waiting for a device
response. -/
theorem set_mode_invalid_utf8 (mode : Nat)
    (hdec : utf8DecodeString (u32ToBeBytes mode) = none)
    (script : List Response) :
    (set_mode mode (initState script)).1 = .error .utf8Error ∧
    (set_mode mode (initState script)).2.trace
        = [.write (u32ToBeBytes mode), .write [13]] ∧
    writtenBytes (set_mode mode (initState script)).2.trace
        = u32ToBeBytes mode ++ [13] ∧
    hasWait (set_mode mode (initState script)).2.trace = false := by
  simp [set_mode, hdec, uartWrite, emit, initState, writtenBytes,
    Event.writtenOf, hasWait]

/-- C9 witness: the tag `0xFFFFFFFF` is invalid UTF-8; `set_mode` on it
writes the 5 bytes, fails with the conversion error, and never waits. -/
theorem set_mode_invalid_utf8_witness :
    (set_mode 4294967295 (initState [])).1 = .error .utf8Error ∧
    (set_mode 4294967295 (initState [])).2.trace
        = [.write (u32ToBeBytes 4294967295), .write [13]] ∧
    writtenBytes (set_mode 4294967295 (initState [])).2.trace
        = u32ToBeBytes 4294967295 ++ [13] ∧
    hasWait (set_mode 4294967295 (initState [])).2.trace = false :=
  set_mode_invalid_utf8 4294967295 (by decide) []

/-- C10: The outcome of the optional post-entry acknowledgement read is
irrelevant to `enter`: whatever the waiter's second outcome is — matched
groups, timeout, or a transport I/O error — `enter` returns `Ok` once the
banner matched, with the break deasserted. -/
theorem enter_ignores_ack_outcome (self : Session) (rt : Bool)
    (gs : List String) (ack : Response) (rest : List Response) :
    (enter self rt (initState (Response.groups gs :: ack :: rest))).1 = .ok () ∧
    breakAsserted
        (enter self rt (initState (Response.groups gs :: ack :: rest))).2.trace
        = false := by
  cases ack <;> cases rt <;>
    simp [enter, waitFor, emit, initState, breakAsserted]

end Rescue
